import Mathlib

/-!
Verification development for the WavesLab repository.

Shallow embedding of the two core subsystems described by the design
document: the persistent node/user store (`src/core/storage/WavesLabRepository.py`)
and the background scheduler/dispatcher (`src/server/simulation/Simulation.py`),
together with the outbound DTO (`src/server/web_api/NodeRequest.py`).

I/O is made explicit: each store operation receives the outcome of reading
its backing files (`Except Unit _`, where `.error ()` stands for any raised
exception during read or parse) and reports the node list it would save, if
any; a separate function applies that save to the file, modelling the
atomic-write behaviour (on failure the prior file survives intact).
-/

set_option autoImplicit false

namespace WavesLab

/-- Modelled from the spec: the `NodeStatus` enumeration
(`core/model/NodeStatus.py` is absent from the sources); §3 gives
`status ∈ \x7bON, OFF\x7d`. -/
inductive NodeStatus where
  | ON
  | OFF
deriving DecidableEq, Repr

/-- Modelled from the spec: the `WaveNode` record (`core/model/WaveNode.py`
is absent from the sources). Fields follow §3 and the persisted shape in
§6 / `_save_nodes`: `id`, `name`, `node_type` (its enumerated category,
kept as its lowercase string form), `status`, `provision_rate` (a `float`
in the source, modelled as `Rat`), `endpoint_url` (empty string means "no
reporting target"; `_load_nodes` normalises a null value to `""`), and
`assigned_user` (an optional username). -/
structure WaveNode where
  id : String
  name : String
  node_type : String
  status : NodeStatus
  provision_rate : Rat
  endpoint_url : String
  assigned_user : Option String
deriving DecidableEq, Repr

/-- Modelled from the spec: the node attribute `endpoint` read by the
scheduler (`node.endpoint` in `Simulation.py`); §3 names the destination
URL attribute `endpoint`, persisted as `endpoint_url` (§6), empty meaning
"no reporting target". -/
def WaveNode.endpoint (n : WaveNode) : String :=
  n.endpoint_url

/-- Outcome of a file read plus JSON parse: `.ok` carries the decoded
content, `.error ()` stands for any exception raised while opening,
reading or decoding the file. -/
abbrev ReadOutcome (α : Type) := Except Unit α

/-- Environment of one repository operation: what `_read_json` would yield
for each backing file. Users are represented by their usernames, the only
field of a `VirtualUser` (spec §3: identity `username`, no other
attributes). -/
structure RepoEnv where
  nodesRead : ReadOutcome (List WaveNode)
  usersRead : ReadOutcome (List String)

/-- Embeds `WavesLabRepository._load_nodes`: any exception during read or
parse is caught, logged, and an empty collection is returned. -/
def load_nodes : ReadOutcome (List WaveNode) → List WaveNode
  | .ok ns => ns
  | .error _ => []

/-- Embeds `WavesLabRepository._load_users`: any exception during read or
parse is caught, logged, and an empty collection is returned. -/
def load_users : ReadOutcome (List String) → List String
  | .ok us => us
  | .error _ => []

/-- Embeds `nodes.get(node_id)` on the dict built by `_load_nodes`
(keyed by `node.id`). -/
def findNode (nodes : List WaveNode) (node_id : String) : Option WaveNode :=
  nodes.find? (fun n => n.id == node_id)

/-- Embeds `nodes[node_id] = node`: the entry under `node_id` is replaced,
order preserved. -/
def setNode (nodes : List WaveNode) (node_id : String) (node : WaveNode) :
    List WaveNode :=
  nodes.map (fun n => if n.id == node_id then node else n)

/-- Python truthiness of the `user_name: Optional[str]` argument:
`None` and the empty string are falsy (`if user_name:`). -/
def userTruthy : Option String → Bool
  | none => false
  | some s => s != ""

/-- Embeds `WavesLabRepository.start_node`. Returns the `(success, message)`
pair and, when `_save_nodes` is reached, the node list passed to it
(`none` on every path that returns before saving). -/
def start_node (env : RepoEnv) (node_id : String) (user_name : Option String) :
    (Bool × String) × Option (List WaveNode) :=
  let nodes := load_nodes env.nodesRead
  match findNode nodes node_id with
  | none => ((false, s!"Node \x27{node_id}\x27 not found"), none)
  | some node =>
    if node.status = NodeStatus.ON then
      ((true, "already running"), none)
    else if userTruthy user_name then
      let users := load_users env.usersRead
      let u := user_name.getD ""
      if users.contains u then
        let node2 := { node with assigned_user := some u, status := NodeStatus.ON }
        ((true, s!"Node \x27{node_id}\x27 started successfully"),
          some (setNode nodes node_id node2))
      else
        ((false, s!"User \x27{u}\x27 not found"), none)
    else
      let node2 := { node with status := NodeStatus.ON }
      ((true, s!"Node \x27{node_id}\x27 started successfully"),
        some (setNode nodes node_id node2))

/-- Embeds `WavesLabRepository.stop_node`. Same result convention as
`start_node`. -/
def stop_node (env : RepoEnv) (node_id : String) :
    (Bool × String) × Option (List WaveNode) :=
  let nodes := load_nodes env.nodesRead
  match findNode nodes node_id with
  | none => ((false, s!"Node \x27{node_id}\x27 not found"), none)
  | some node =>
    if node.status = NodeStatus.OFF then
      ((true, "already stopped"), none)
    else
      let node2 := { node with status := NodeStatus.OFF, assigned_user := none }
      ((true, s!"Node \x27{node_id}\x27 stopped successfully"),
        some (setNode nodes node_id node2))

/-- Embeds `WavesLabRepository.get_active_nodes`: the loaded nodes whose
status is ON. -/
def get_active_nodes (env : RepoEnv) : List WaveNode :=
  (load_nodes env.nodesRead).filter (fun n => n.status == NodeStatus.ON)

/-- Embeds the effect of `_save_nodes` on the nodes file: when no save was
requested the file is untouched; when the atomic write fails
(`writeOk = false`) the exception is caught inside `_save_nodes` and the
prior file survives intact (`_write_json_atomic` swaps only on success). -/
def save_nodes (oldFile : List WaveNode) (writeOk : Bool) :
    Option (List WaveNode) → List WaveNode
  | none => oldFile
  | some newFile => if writeOk then newFile else oldFile

/-- Durable state visible to the store: the parsed contents of the two
backing files. -/
structure Store where
  nodes : List WaveNode
  users : List String
deriving DecidableEq, Repr

/-- Environment of an operation whose reads succeed and return the current
file contents. -/
def okEnv (s : Store) : RepoEnv :=
  { nodesRead := .ok s.nodes, usersRead := .ok s.users }

/-- One complete `start_node` call against the durable state: reads
succeed, the save (if reached) is applied with outcome `writeOk`. -/
def startNodeRun (s : Store) (writeOk : Bool) (node_id : String)
    (user_name : Option String) : (Bool × String) × Store :=
  let r := start_node (okEnv s) node_id user_name
  (r.1, { s with nodes := save_nodes s.nodes writeOk r.2 })

/-- One complete `stop_node` call against the durable state. -/
def stopNodeRun (s : Store) (writeOk : Bool) (node_id : String) :
    (Bool × String) × Store :=
  let r := stop_node (okEnv s) node_id
  (r.1, { s with nodes := save_nodes s.nodes writeOk r.2 })

/-- Presence of the two backing files, as seen by
`WavesLabRepository.__init__`. -/
structure DataDir where
  users_file_exists : Bool
  nodes_file_exists : Bool
deriving DecidableEq, Repr

/-- Embeds `WavesLabRepository.__init__`: it checks that both backing files
exist (users first), raising `FileNotFoundError` otherwise, and performs no
write, directory creation or data seeding (the directory state is returned
unchanged on every path). -/
def repository_init (d : DataDir) : Except String Unit × DataDir :=
  if !d.users_file_exists then
    (.error "Users file not found", d)
  else if !d.nodes_file_exists then
    (.error "Nodes file not found", d)
  else
    (.ok (), d)

/-- Field names of the `NodeRequest` pydantic model
(`server/web_api/NodeRequest.py`) that carry no default and are therefore
required at construction: `node_name` and `provision_rate`
(`username` defaults to `None`). -/
def nodeRequestRequiredFields : List String :=
  ["node_name", "provision_rate"]

/-- Keyword arguments passed to the `NodeRequest` constructor at its only
call site, `SimulationManager._send_node_request`:
`NodeRequest(realTimeConsumption=..., username=...)`. -/
def sendCallKwargs : List String :=
  ["realTimeConsumption", "username"]

/-- Whether the pydantic construction of the payload DTO succeeds: every
required field must be supplied (extra keyword arguments are ignored by
default, but a missing required field raises `ValidationError`). -/
def nodeRequestConstructionOk : Bool :=
  nodeRequestRequiredFields.all (fun f => sendCallKwargs.contains f)

/-- What the network would do with one outbound POST, were it issued. -/
inductive HttpOutcome where
  | response (status : Nat)
  | timeout
  | requestError
  | unexpectedError
deriving DecidableEq, Repr

/-- A POST as issued by the dispatcher: target URL, JSON body fields, and the
Content-Type header. -/
structure HttpPost where
  url : String
  body_consumption : Rat
  body_username : Option String
  content_type : String
deriving DecidableEq, Repr

/-- Embeds `SimulationManager._send_node_request`. `clientInit` is whether
`self.client` is set; `metric` is the node's current consumption value
(modelled from the spec: the live metric `node.real_time_consumption`,
computed by the `WaveNode` model absent from the sources); `net` is what the
network would answer. Returns the boolean result together with the POST
actually issued, if any. Inside the `try` block the payload DTO is
constructed first; since its construction fails
(`nodeRequestConstructionOk = false`), the `ValidationError` is caught by
the final `except Exception` handler and `False` is returned before any
request is sent. -/
def send_node_request (clientInit : Bool) (node : WaveNode) (metric : Rat)
    (net : HttpOutcome) : Bool × Option HttpPost :=
  if !clientInit then
    (false, none)
  else if !nodeRequestConstructionOk then
    (false, none)
  else
    let post : HttpPost :=
      { url := node.endpoint
        body_consumption := metric
        body_username := node.assigned_user
        content_type := "application/json" }
    match net with
    | .response s => (s == 200, some post)
    | .timeout => (false, some post)
    | .requestError => (false, some post)
    | .unexpectedError => (false, some post)

/-- Embeds the fan-out loop of `SimulationManager._send_requests_for_nodes`:
for each node, a dispatch task is created when `node.endpoint` is truthy
(non-empty), otherwise the node is logged as lacking an endpoint URL.
Returns the nodes dispatched and the nodes skipped, in loop order. -/
def send_requests_for_nodes : List WaveNode → List WaveNode × List WaveNode
  | [] => ([], [])
  | n :: rest =>
    let r := send_requests_for_nodes rest
    if n.endpoint != "" then
      (n :: r.1, r.2)
    else
      (r.1, n :: r.2)

/-- What one iteration of `_simulation_loop` encounters inside its `try`
block (querying active nodes, fanning out, sleeping the interval). -/
inductive TickEvent where
  | ok
  | cancelled
  | error
deriving DecidableEq, Repr

/-- Observable action of one loop iteration. -/
inductive LoopAction where
  | tick
  | errorPause (t : Nat)
  | exitLoop
deriving DecidableEq, Repr

/-- Embeds `SimulationManager._simulation_loop` over a finite trace of tick
events, with `self.running` held true throughout (the trace ends when the
process stops): a normal tick completes and the loop continues;
`asyncio.CancelledError` breaks out of the loop; any other exception is
caught, logged, followed by `asyncio.sleep(1)`, and the loop continues. -/
def simulation_loop : List TickEvent → List LoopAction
  | [] => []
  | .ok :: rest => .tick :: simulation_loop rest
  | .cancelled :: _ => [.exitLoop]
  | .error :: rest => .errorPause 1 :: simulation_loop rest

/-- Whether `repository_init` succeeds (no `FileNotFoundError` raised). -/
def initOk (d : DataDir) : Bool :=
  match (repository_init d).1 with
  | .ok _ => true
  | .error _ => false

/-- Fixture: the node of spec §8, initially OFF, no assigned user. -/
def faucetNode : WaveNode :=
  { id := "kitchen-faucet", name := "kitchen faucet", node_type := "faucet"
    status := NodeStatus.OFF, provision_rate := 2, endpoint_url := ""
    assigned_user := none }

/-- Fixture: an OFF node that still carries an assigned user (such a record
can come straight from the nodes backing file). -/
def offNodeWithUser : WaveNode :=
  { id := "n1", name := "lamp", node_type := "light"
    status := NodeStatus.OFF, provision_rate := 1, endpoint_url := ""
    assigned_user := some "alice" }

/-- Fixture: an ON node with an assigned user and an endpoint. -/
def onNodeWithUser : WaveNode :=
  { id := "n2", name := "tv", node_type := "appliance"
    status := NodeStatus.ON, provision_rate := 3
    endpoint_url := "http://localhost:8001/monitoring"
    assigned_user := some "alice" }

/-- Fixture: store holding the §8 scenario: one OFF node, user alice. -/
def storeA : Store := { nodes := [faucetNode], users := ["alice"] }

/-- Fixture: store holding one OFF node that still carries a user. -/
def storeB : Store := { nodes := [offNodeWithUser], users := ["alice"] }

/-- Fixture: store holding an ON node with a user, plus an OFF node. -/
def storeC : Store := { nodes := [onNodeWithUser, offNodeWithUser], users := ["alice"] }

/-- Fixture: five ON nodes, three with a destination and two without. -/
def fiveActiveNodes : List WaveNode :=
  [ { id := "a1", name := "a1", node_type := "light", status := NodeStatus.ON
      provision_rate := 1, endpoint_url := "http://h/1", assigned_user := none },
    { id := "a2", name := "a2", node_type := "light", status := NodeStatus.ON
      provision_rate := 1, endpoint_url := "", assigned_user := none },
    { id := "a3", name := "a3", node_type := "faucet", status := NodeStatus.ON
      provision_rate := 1, endpoint_url := "http://h/3", assigned_user := some "alice" },
    { id := "a4", name := "a4", node_type := "appliance", status := NodeStatus.ON
      provision_rate := 1, endpoint_url := "", assigned_user := none },
    { id := "a5", name := "a5", node_type := "appliance", status := NodeStatus.ON
      provision_rate := 1, endpoint_url := "http://h/5", assigned_user := none } ]

section Lemmas

/-- A node returned by the id lookup has the id it was looked up under. -/
theorem findNode_id {l : List WaveNode} {node_id : String} {n : WaveNode}
    (h : findNode l node_id = some n) : n.id = node_id := by
  have := List.find?_some h
  simpa using this

/-- Updating the entry under a present key makes the lookup return the new
value. -/
theorem findNode_setNode {l : List WaveNode} {node_id : String}
    (v : WaveNode) (h : (findNode l node_id).isSome = true)
    (hv : v.id = node_id) :
    findNode (setNode l node_id v) node_id = some v := by
  induction l with
  | nil => simp [findNode] at h
  | cons a t ih =>
    by_cases hb : (a.id == node_id) = true
    · calc findNode (setNode (a :: t) node_id v) node_id
          = List.find? (fun n => n.id == node_id)
              ((if a.id == node_id then v else a) :: setNode t node_id v) := rfl
        _ = some v := by
            rw [if_pos hb]
            exact List.find?_cons_of_pos _ (by simp [hv])
    · have hkeep : findNode (a :: t) node_id = findNode t node_id :=
        List.find?_cons_of_neg _ hb
      have ht : (findNode t node_id).isSome = true := by
        rw [hkeep] at h; exact h
      calc findNode (setNode (a :: t) node_id v) node_id
          = List.find? (fun n => n.id == node_id)
              ((if a.id == node_id then v else a) :: setNode t node_id v) := rfl
        _ = findNode (setNode t node_id v) node_id := by
            rw [if_neg hb]
            exact List.find?_cons_of_neg _ hb
        _ = some v := ih ht

/-- Starting a node that is already ON is a success no-op: nothing is
saved and the store is unchanged. -/
theorem start_already_on (s : Store) (node_id : String) (u : Option String)
    (n : WaveNode) (hfind : findNode s.nodes node_id = some n)
    (hon : n.status = NodeStatus.ON) :
    startNodeRun s true node_id u = ((true, "already running"), s) := by
  simp [startNodeRun, start_node, okEnv, load_nodes, hfind, hon, save_nodes]

/-- After a successful `start_node` call, the target node is ON and the
users file is untouched. -/
theorem start_ok_after (s : Store) (node_id : String) (u : Option String)
    (h1 : ((startNodeRun s true node_id u).1).1 = true) :
    (∃ n, findNode ((startNodeRun s true node_id u).2).nodes node_id = some n ∧
      n.status = NodeStatus.ON) ∧
    ((startNodeRun s true node_id u).2).users = s.users := by
  rcases hfe : findNode s.nodes node_id with _ | n
  · simp [startNodeRun, start_node, okEnv, load_nodes, hfe] at h1
  · have hsome : (findNode s.nodes node_id).isSome = true := by simp [hfe]
    have hid : n.id = node_id := findNode_id hfe
    by_cases hon : n.status = NodeStatus.ON
    · refine ⟨⟨n, ?_, hon⟩, ?_⟩ <;>
        simp [startNodeRun, start_node, okEnv, load_nodes, hfe, hon, save_nodes]
    · by_cases ht : userTruthy u = true
      · by_cases hc : (u.getD "") ∈ s.users
        · have hfd := findNode_setNode
            { n with assigned_user := some (u.getD ""), status := NodeStatus.ON }
            hsome hid
          refine
            ⟨⟨{ n with assigned_user := some (u.getD ""), status := NodeStatus.ON },
              ?_, rfl⟩, ?_⟩ <;>
            simp [startNodeRun, start_node, okEnv, load_nodes, load_users, hfe,
              hon, ht, hc, save_nodes, hfd]
        · simp [startNodeRun, start_node, okEnv, load_nodes, load_users, hfe,
            hon, ht, hc] at h1
      · have hfd := findNode_setNode
          { n with status := NodeStatus.ON } hsome hid
        refine ⟨⟨{ n with status := NodeStatus.ON }, ?_, rfl⟩, ?_⟩ <;>
          simp [startNodeRun, start_node, okEnv, load_nodes, hfe, hon, ht,
            save_nodes, hfd]

/-- The loop emits `exitLoop` exactly when the trace contains a
cancellation. -/
theorem simulation_loop_exit_any (evs : List TickEvent) :
    (simulation_loop evs).any (fun a => a == LoopAction.exitLoop) =
      evs.any (fun e => e == TickEvent.cancelled) := by
  induction evs with
  | nil => rfl
  | cons e rest ih =>
    cases e <;> simp only [simulation_loop, List.any_cons, ih] <;> rfl

/-- Every node handed to the fan-out loop is either dispatched or skipped:
the two output lists sum to the input length. -/
theorem send_requests_length (ns : List WaveNode) :
    (send_requests_for_nodes ns).1.length +
      (send_requests_for_nodes ns).2.length = ns.length := by
  induction ns with
  | nil => rfl
  | cons n rest ih =>
    by_cases h : (n.endpoint != "") = true <;>
      · simp [send_requests_for_nodes, h]
        omega

/-- The fan-out loop splits the nodes into those with a non-empty endpoint
(dispatched) and those without (skipped). -/
theorem send_requests_eq_filter (ns : List WaveNode) :
    send_requests_for_nodes ns =
      (ns.filter (fun n => n.endpoint != ""),
       ns.filter (fun n => n.endpoint == "")) := by
  induction ns with
  | nil => rfl
  | cons n rest ih =>
    by_cases h : (n.endpoint != "") = true
    · have h2 : (n.endpoint == "") = false := by
        simpa [bne] using h
      simp [send_requests_for_nodes, h, h2, ih]
    · have h2 : (n.endpoint == "") = true := by
        simpa [bne] using h
      simp [send_requests_for_nodes, h, h2, ih]

end Lemmas

/-- C1 counterexample: in the store holding the OFF node `n1` that still
carries `assigned_user = "alice"`, `stop_node("n1")` takes the
already-stopped early return and leaves `assigned_user` set, so stopping
does not clear `assigned_user` when the node was already OFF. -/
theorem stop_already_off_keeps_user_cex :
    stopNodeRun storeB true "n1" = ((true, "already stopped"), storeB) ∧
    findNode (stopNodeRun storeB true "n1").2.nodes "n1" = some offNodeWithUser ∧
    offNodeWithUser.assigned_user = some "alice" := by
  refine ⟨rfl, rfl, rfl⟩

/-- C1 (amended): stopping a node that is ON clears `assigned_user`
(whatever its prior value) and persists the node as OFF; stopping an
already-OFF node is a success no-op that leaves the store — including any
prior `assigned_user` — unchanged. -/
theorem stop_node_clears_user_amended (s : Store) (node_id : String)
    (n : WaveNode) (hfind : findNode s.nodes node_id = some n) :
    (n.status = NodeStatus.ON →
      (stopNodeRun s true node_id).1 =
        (true, s!"Node \x27{node_id}\x27 stopped successfully") ∧
      findNode (stopNodeRun s true node_id).2.nodes node_id =
        some { n with status := NodeStatus.OFF, assigned_user := none }) ∧
    (n.status = NodeStatus.OFF →
      stopNodeRun s true node_id = ((true, "already stopped"), s)) := by
  have hsome : (findNode s.nodes node_id).isSome = true := by simp [hfind]
  have hid : n.id = node_id := findNode_id hfind
  constructor
  · intro hon
    have hfd := findNode_setNode
      { n with status := NodeStatus.OFF, assigned_user := none } hsome hid
    constructor <;>
      simp [stopNodeRun, stop_node, okEnv, load_nodes, hfind, hon, save_nodes, hfd]
  · intro hoff
    simp [stopNodeRun, stop_node, okEnv, load_nodes, hfind, hoff, save_nodes]

/-- C1 witness: stopping the ON node `n2` (assigned to alice) yields the
success message and persists it OFF with `assigned_user` cleared. -/
theorem stop_node_clears_user_witness :
    (stopNodeRun storeC true "n2").1 =
      (true, "Node \x27n2\x27 stopped successfully") ∧
    findNode (stopNodeRun storeC true "n2").2.nodes "n2" =
      some { onNodeWithUser with status := NodeStatus.OFF, assigned_user := none } :=
  (stop_node_clears_user_amended storeC "n2" onNodeWithUser (by rfl)).1 (by rfl)

/-- C2 counterexample: on the store holding the OFF node `kitchen-faucet`
and only the user alice, the first `start_node("kitchen-faucet", "bob")`
already fails (NotFound on the user), so start-then-start does not return
success both times for arbitrary usernames. -/
theorem start_twice_success_cex :
    (startNodeRun storeA true "kitchen-faucet" (some "bob")).1 =
      (false, "User \x27bob\x27 not found") := by
  rfl

/-- C2 (amended): whenever the first `start_node(id, u)` call succeeds
(which holds exactly when the node exists and is already ON, or is OFF and
`u` is empty, omitted, or names an existing user), an immediately following
`start_node(id, u2)` succeeds as the "already running" no-op, mutates
nothing, and the node stays ON with the `assigned_user` the first call
produced. -/
theorem start_idempotent_amended (s : Store) (node_id : String)
    (u u' : Option String)
    (h1 : ((startNodeRun s true node_id u).1).1 = true) :
    (startNodeRun (startNodeRun s true node_id u).2 true node_id u').1 =
      (true, "already running") ∧
    (startNodeRun (startNodeRun s true node_id u).2 true node_id u').2 =
      (startNodeRun s true node_id u).2 ∧
    ∃ n, findNode (startNodeRun s true node_id u).2.nodes node_id = some n ∧
      n.status = NodeStatus.ON := by
  obtain ⟨⟨n, hf1, hon⟩, -⟩ := start_ok_after s node_id u h1
  have h2 := start_already_on (startNodeRun s true node_id u).2 node_id u' n hf1 hon
  refine ⟨?_, ?_, ⟨n, hf1, hon⟩⟩ <;> rw [h2]

/-- C2 witness: starting `kitchen-faucet` with alice succeeds; the
immediate second start (even naming the nonexistent bob) is the
"already running" success no-op on an unchanged store. -/
theorem start_idempotent_witness :
    (startNodeRun (startNodeRun storeA true "kitchen-faucet" (some "alice")).2
        true "kitchen-faucet" (some "bob")).1 = (true, "already running") ∧
    (startNodeRun (startNodeRun storeA true "kitchen-faucet" (some "alice")).2
        true "kitchen-faucet" (some "bob")).2 =
      (startNodeRun storeA true "kitchen-faucet" (some "alice")).2 ∧
    ∃ n, findNode (startNodeRun storeA true "kitchen-faucet"
        (some "alice")).2.nodes "kitchen-faucet" = some n ∧
      n.status = NodeStatus.ON :=
  start_idempotent_amended storeA "kitchen-faucet" (some "alice") (some "bob")
    (by rfl)

/-- C3: starting an existing OFF node with a non-empty username that names
no existing user fails with the NotFound message, reaches no save
(`_save_nodes` is not called), and leaves the store — the node's status and
assignment included — unchanged. -/
theorem start_nonexistent_user_fails (s : Store) (w : Bool) (node_id u : String)
    (n : WaveNode) (hfind : findNode s.nodes node_id = some n)
    (hoff : n.status = NodeStatus.OFF) (hne : u ≠ "") (hnu : u ∉ s.users) :
    startNodeRun s w node_id (some u) =
      ((false, s!"User \x27{u}\x27 not found"), s) ∧
    (start_node (okEnv s) node_id (some u)).2 = none := by
  constructor <;>
    simp [startNodeRun, start_node, okEnv, load_nodes, load_users, hfind, hoff,
      userTruthy, hne, hnu, save_nodes]

/-- C3 witness: starting the OFF `kitchen-faucet` as the nonexistent bob
fails with the NotFound message, saves nothing, and leaves the store
unchanged. -/
theorem start_nonexistent_user_fails_witness :
    startNodeRun storeA true "kitchen-faucet" (some "bob") =
      ((false, "User \x27bob\x27 not found"), storeA) ∧
    (start_node (okEnv storeA) "kitchen-faucet" (some "bob")).2 = none :=
  start_nonexistent_user_fails storeA true "kitchen-faucet" "bob" faucetNode
    (by rfl) (by rfl) (by decide) (by decide)

/-- C4: the dispatch attempt never reaches the outcome classification: the
payload DTO construction fails its required-field validation, the raised
error is caught as an unexpected fault, and the call returns false even
when the network would answer an HTTP 200, contradicting the
"true exactly on status 200" classification. -/
theorem send_node_request_false_on_200 (node : WaveNode) (metric : Rat) :
    nodeRequestConstructionOk = false ∧
    (send_node_request true node metric (HttpOutcome.response 200)).1 = false := by
  exact ⟨rfl, rfl⟩

/-- C5: no HTTP POST is ever issued by the dispatch attempt, for any client
state, node, metric value and network behaviour: the payload construction
fails before the request is sent, so no body carrying the consumption
metric and assigned user is ever transmitted. -/
theorem send_node_request_never_posts (clientInit : Bool) (node : WaveNode)
    (metric : Rat) (net : HttpOutcome) :
    (send_node_request clientInit node metric net).2 = none := by
  cases clientInit <;> rfl

/-- C6: per tick, the dispatched list is exactly the active nodes with a
non-empty destination and the skipped list is exactly the active nodes
without one (so dispatch attempts number exactly the active nodes with a
destination, and the two groups partition the active nodes); on the
concrete five-active-node store with three destinations, exactly 3 are
dispatched and 2 skipped. -/
theorem tick_dispatch_counts (env : RepoEnv) :
    send_requests_for_nodes (get_active_nodes env) =
      ((get_active_nodes env).filter (fun n => n.endpoint != ""),
       (get_active_nodes env).filter (fun n => n.endpoint == "")) ∧
    (send_requests_for_nodes (get_active_nodes env)).1.length +
      (send_requests_for_nodes (get_active_nodes env)).2.length =
      (get_active_nodes env).length ∧
    (send_requests_for_nodes (get_active_nodes
       { nodesRead := .ok fiveActiveNodes, usersRead := .ok [] })).1.length = 3 ∧
    (send_requests_for_nodes (get_active_nodes
       { nodesRead := .ok fiveActiveNodes, usersRead := .ok [] })).2.length = 2 :=
  ⟨send_requests_eq_filter _, send_requests_length _, rfl, rfl⟩

/-- C7: store construction succeeds exactly when both backing files exist
(users file checked first), raising `FileNotFoundError` otherwise, and on
every path it leaves the data directory untouched — no directory, file or
default data is created. -/
theorem repository_init_fail_fast (d : DataDir) :
    (repository_init d).2 = d ∧
    initOk d = (d.users_file_exists && d.nodes_file_exists) := by
  rcases d with ⟨u, n⟩
  cases u <;> cases n <;> exact ⟨rfl, rfl⟩

/-- C8: store I/O failures never escape an operation: a failed load yields
the empty collection, so `start_node`/`stop_node` then report NotFound with
no save; a failed save is swallowed and leaves the prior file intact; and
the `(ok, message)` result of a complete start/stop run does not depend on
whether the save succeeds. -/
theorem store_io_failures_contained (usersRead : ReadOutcome (List String))
    (node_id : String) (u : Option String) (old : List WaveNode)
    (req : Option (List WaveNode)) (s : Store) (w : Bool) :
    load_nodes (Except.error ()) = [] ∧
    load_users (Except.error ()) = [] ∧
    start_node { nodesRead := Except.error (), usersRead := usersRead }
        node_id u = ((false, s!"Node \x27{node_id}\x27 not found"), none) ∧
    stop_node { nodesRead := Except.error (), usersRead := usersRead }
        node_id = ((false, s!"Node \x27{node_id}\x27 not found"), none) ∧
    save_nodes old false req = old ∧
    (startNodeRun s w node_id u).1 = (startNodeRun s true node_id u).1 ∧
    (stopNodeRun s w node_id).1 = (stopNodeRun s true node_id).1 := by
  refine ⟨rfl, rfl, rfl, rfl, ?_, rfl, rfl⟩
  cases req <;> rfl

/-- C9: while the loop is running, a tick that raises a non-cancellation
error is caught and followed by a 1-unit pause after which the loop
processes the remaining trace; and the loop emits its exit action exactly
when the trace contains a cancellation — no other error terminates it. -/
theorem simulation_loop_error_resilient (rest evs : List TickEvent) :
    simulation_loop (TickEvent.error :: rest) =
      LoopAction.errorPause 1 :: simulation_loop rest ∧
    (simulation_loop evs).any (fun a => a == LoopAction.exitLoop) =
      evs.any (fun e => e == TickEvent.cancelled) :=
  ⟨rfl, simulation_loop_exit_any evs⟩

/-- C10: starting an existing OFF node with the empty-string username is
treated exactly like omitting the username (the `if user_name:` truthiness
test fails): the call is identical to the no-username call for every
environment — so no user lookup influences it — and it succeeds, setting
the node ON while leaving `assigned_user` at its prior value. -/
theorem start_empty_username_like_none (s : Store) (env : RepoEnv)
    (node_id : String) (n : WaveNode)
    (hfind : findNode s.nodes node_id = some n)
    (hoff : n.status = NodeStatus.OFF) :
    start_node env node_id (some "") = start_node env node_id none ∧
    startNodeRun s true node_id (some "") =
      ((true, s!"Node \x27{node_id}\x27 started successfully"),
       { s with nodes :=
           (setNode s.nodes node_id { n with status := NodeStatus.ON }) }) := by
  constructor
  · rcases hm : findNode (load_nodes env.nodesRead) node_id with _ | m
    · simp [start_node, hm]
    · by_cases hmon : m.status = NodeStatus.ON <;>
        simp [start_node, hm, hmon, userTruthy]
  · simp [startNodeRun, start_node, okEnv, load_nodes, hfind, hoff, userTruthy,
      save_nodes]

/-- C10 witness: starting the OFF `kitchen-faucet` with the empty username
coincides with starting it with no username and succeeds, leaving its
(absent) assignment untouched. -/
theorem start_empty_username_witness :
    start_node (okEnv storeA) "kitchen-faucet" (some "") =
      start_node (okEnv storeA) "kitchen-faucet" none ∧
    startNodeRun storeA true "kitchen-faucet" (some "") =
      ((true, "Node \x27kitchen-faucet\x27 started successfully"),
       { storeA with nodes :=
           (setNode storeA.nodes "kitchen-faucet"
             { faucetNode with status := NodeStatus.ON }) }) :=
  start_empty_username_like_none storeA (okEnv storeA) "kitchen-faucet"
    faucetNode (by rfl) (by rfl)

end WavesLab
